import Mathlib

/-!
Verification of the Hifazat-AI campus-security core: a shallow embedding of
the alert store, the per-channel confirmation filters, the escalation
debounce and the dispatch coordinator, together with theorems settling the
specification's claims about them.

Sources embedded:
* `src/types/detection.ts` — the data model (`CampusStatus`, `AlertEvent`).
* `src/hooks/useWebSocket.ts` (`useDemoMode`) — the alert/state store
  (`addAlert`, `acknowledgeAlert`, `resetStatus`).
* `src/hooks/useThreatDetection.ts` (second half of `useWebSocket.ts` in this
  snapshot) — `createAlert` with its 5000 ms per-type debounce.
* `src/hooks/useWeaponDetection.ts` (strict variant) — `detectWeapons` with
  rate limiting and 3-consecutive confirmation.
* `usePoseDetection.ts` — `detectPose` with the 3000 ms sustained-gesture rule.
* `src/hooks/useAudioDetection.ts` — the threat decision of
  `processAudioBuffer`.
* `src/pages/Dashboard.tsx` — `handleAudioThreat` (the sound-alert path).
* `src/hooks/useEmergencyDispatch.ts` — `sendEmergencyAlert` with its
  30000 ms global debounce.
* `supabase/functions/emergency-dispatch/index.ts` — the multi-channel
  dispatch edge function.

JavaScript timestamps are modelled as `Int`; JavaScript truthiness of a
nullable number (`null` and `0` are both falsy) is modelled explicitly
wherever the source relies on it.
-/

namespace Hifazat

/-- `CampusStatus` from `src/types/detection.ts`: `"secure" | "alert" | "lockdown"`. -/
inductive CampusStatus
  | secure
  | alert
  | lockdown
deriving DecidableEq

/-- `AlertEvent.type` from `src/types/detection.ts`:
`"threat" | "sos" | "sound" | "intrusion"`. -/
inductive AlertType
  | threat
  | sos
  | sound
  | intrusion
deriving DecidableEq

/-- `AlertEvent` from `src/types/detection.ts`. -/
structure AlertEvent where
  id : String
  type : AlertType
  message : String
  cameraId : String
  cameraName : String
  timestamp : Int
  snapshot : Option String
  acknowledged : Bool
deriving DecidableEq

/-- The argument of `addAlert` in `useDemoMode` (`useWebSocket.ts`):
`Omit<AlertEvent, "id" | "timestamp" | "acknowledged">`. -/
structure AlertInput where
  type : AlertType
  message : String
  cameraId : String
  cameraName : String
  snapshot : Option String
deriving DecidableEq

/-- The mutable state owned by `useDemoMode` (`useWebSocket.ts`):
the `alerts` list (most recent first) and the `campusStatus` value. -/
structure DemoState where
  alerts : List AlertEvent
  campusStatus : CampusStatus
deriving DecidableEq

/-- Severity order of `CampusStatus` implied by the spec:
Secure < Alert < Lockdown. -/
def severity : CampusStatus → Nat
  | CampusStatus.secure => 0
  | CampusStatus.alert => 1
  | CampusStatus.lockdown => 2

/-- The `AlertEvent` record built by `addAlert` (`useWebSocket.ts` lines
169-174): id `alert-${Date.now()}`, timestamp `Date.now()`,
`acknowledged: false`. -/
def mkAlertEvent (a : AlertInput) (now : Int) : AlertEvent :=
  { id := "alert-" ++ toString now
    type := a.type
    message := a.message
    cameraId := a.cameraId
    cameraName := a.cameraName
    timestamp := now
    snapshot := a.snapshot
    acknowledged := false }

/-- `addAlert` from `useDemoMode` (`useWebSocket.ts` lines 168-182):
prepends the new alert, truncates the history to 20 via
`[newAlert, ...prev].slice(0, 20)`, and sets the campus status by alert
type (`threat` → lockdown, `sos`/`intrusion` → alert, otherwise unchanged). -/
def addAlert (a : AlertInput) (now : Int) (s : DemoState) : DemoState :=
  { alerts := (mkAlertEvent a now :: s.alerts).take 20
    campusStatus :=
      if a.type = AlertType.threat then CampusStatus.lockdown
      else if a.type = AlertType.sos ∨ a.type = AlertType.intrusion then CampusStatus.alert
      else s.campusStatus }

/-- `acknowledgeAlert` from `useDemoMode` (`useWebSocket.ts` lines 184-188):
maps over the list setting `acknowledged: true` on the matching id. -/
def acknowledgeAlert (alertId : String) (s : DemoState) : DemoState :=
  { s with
    alerts := s.alerts.map fun a =>
      if a.id = alertId then { a with acknowledged := true } else a }

/-- `resetStatus` from `useDemoMode` (`useWebSocket.ts` lines 190-192):
`setCampusStatus("secure")` and nothing else. -/
def resetStatus (s : DemoState) : DemoState :=
  { s with campusStatus := CampusStatus.secure }

/-- History timestamps are in descending order (most recent first). -/
def mostRecentFirst (l : List AlertEvent) : Prop :=
  l.Chain' fun a b => b.timestamp ≤ a.timestamp

instance mostRecentFirstDec : (l : List AlertEvent) → Decidable (mostRecentFirst l)
  | [] => isTrue List.chain'_nil
  | [a] => isTrue (List.chain'_singleton a)
  | a :: b :: l =>
      haveI := mostRecentFirstDec (b :: l)
      decidable_of_iff (b.timestamp ≤ a.timestamp ∧ mostRecentFirst (b :: l))
        (by simp [mostRecentFirst, List.chain'_cons])

/-- An empty store whose status is Lockdown. -/
def lockdownState : DemoState :=
  { alerts := [], campusStatus := CampusStatus.lockdown }

/-- An empty store whose status is Secure. -/
def secureState : DemoState :=
  { alerts := [], campusStatus := CampusStatus.secure }

/-- The SOS alert input built by `createAlert` in `useThreatDetection.ts`. -/
def sosInput : AlertInput :=
  { type := AlertType.sos
    message := "🆘 SOS GESTURE DETECTED - Person signaling for help!"
    cameraId := "mobile-cam"
    cameraName := "Main Gate (Mobile)"
    snapshot := none }

/-- Claim C1, counterexample: with the campus in Lockdown, admitting an SOS
alert through `addAlert` moves the status to Alert — a strictly lower
severity — so a new alert can silently downgrade the status. -/
theorem sos_alert_downgrades_lockdown :
    (addAlert sosInput 1000 lockdownState).campusStatus = CampusStatus.alert
    ∧ severity (addAlert sosInput 1000 lockdownState).campusStatus
        < severity lockdownState.campusStatus := by
  decide

/-- Claim C1, amended: `addAlert` sets the status purely by alert type —
a Weapon (`threat`) alert always yields Lockdown, an SOS or Intrusion alert
always yields Alert (even from Lockdown, i.e. it can downgrade), a Sound
alert leaves the status unchanged — and the manual reset yields Secure. -/
theorem addAlert_status_transition (a : AlertInput) (now : Int) (s : DemoState) :
    (a.type = AlertType.threat → (addAlert a now s).campusStatus = CampusStatus.lockdown)
    ∧ (a.type = AlertType.sos ∨ a.type = AlertType.intrusion →
        (addAlert a now s).campusStatus = CampusStatus.alert)
    ∧ (a.type = AlertType.sound → (addAlert a now s).campusStatus = s.campusStatus)
    ∧ (resetStatus s).campusStatus = CampusStatus.secure := by
  refine ⟨fun h => ?_, fun h => ?_, fun h => ?_, rfl⟩
  · simp [addAlert, h]
  · rcases h with h | h <;> simp [addAlert, h]
  · simp [addAlert, h]

/-- Witness for `addAlert_status_transition` at a concrete input. -/
theorem addAlert_status_transition_witness :
    (addAlert sosInput 5 lockdownState).campusStatus = CampusStatus.alert :=
  (addAlert_status_transition sosInput 5 lockdownState).2.1 (Or.inl rfl)

/-- Claim C9: `resetStatus` sets the campus status to Secure and leaves the
alert history — hence its length, contents, order and every record's
`acknowledged` flag — untouched. -/
theorem resetStatus_secure_and_frame (s : DemoState) :
    (resetStatus s).campusStatus = CampusStatus.secure
    ∧ (resetStatus s).alerts = s.alerts :=
  ⟨rfl, rfl⟩

/-- Claim C7: after any insertion the history has at most 20 records; if the
previous history was most-recent-first and the new record is at least as
recent as every stored one, the result is still most-recent-first; and when
the history is full (20 records) the evicted record is exactly the last
element of the most-recent-first list (the oldest). -/
theorem addAlert_history_ring (a : AlertInput) (now : Int) (s : DemoState)
    (hsorted : mostRecentFirst s.alerts)
    (hle : ∀ x ∈ s.alerts, x.timestamp ≤ now) :
    (addAlert a now s).alerts.length ≤ 20
    ∧ mostRecentFirst (addAlert a now s).alerts
    ∧ (s.alerts.length = 20 →
        (addAlert a now s).alerts = mkAlertEvent a now :: s.alerts.dropLast) := by
  refine ⟨?_, ?_, fun hfull => ?_⟩
  · simp [addAlert]
  · unfold addAlert mostRecentFirst
    apply List.Chain'.take
    refine List.chain'_cons'.mpr ⟨fun y hy => ?_, hsorted⟩
    have : y ∈ s.alerts := List.mem_of_mem_head? hy
    simpa [mkAlertEvent] using hle y this
  · show (mkAlertEvent a now :: s.alerts).take 20 = _
    rw [show (20 : Nat) = 19 + 1 from rfl, List.take_succ_cons,
      List.dropLast_eq_take, hfull]

/-- A sound-alert input used to populate concrete histories. -/
def soundInput : AlertInput :=
  { type := AlertType.sound
    message := "sound"
    cameraId := "cam-2"
    cameraName := "Library Entrance"
    snapshot := none }

/-- A full 20-record store with strictly descending timestamps 20, 19, …, 1. -/
def fullState : DemoState :=
  { alerts := (List.range 20).map fun i => mkAlertEvent soundInput (20 - (i : Int))
    campusStatus := CampusStatus.secure }

/-- Witness for `addAlert_history_ring` at a concrete full history. -/
theorem addAlert_history_ring_witness :
    (addAlert soundInput 21 fullState).alerts.length ≤ 20
    ∧ mostRecentFirst (addAlert soundInput 21 fullState).alerts
    ∧ (fullState.alerts.length = 20 →
        (addAlert soundInput 21 fullState).alerts
          = mkAlertEvent soundInput 21 :: fullState.alerts.dropLast) :=
  addAlert_history_ring soundInput 21 fullState (by decide) (by decide)

/-! ### Escalation debounce: `useThreatDetection.createAlert` and the
Dashboard sound path -/

/-- JavaScript truthiness of a nullable millisecond timestamp:
`null` and `0` are falsy, every other number is truthy. -/
def jsTruthy : Option Int → Bool
  | none => false
  | some t => t != 0

/-- The two alert kinds `createAlert` accepts (`"weapon" | "sos"`). -/
inductive ThreatAlertKind
  | weapon
  | sos
deriving DecidableEq

/-- `ThreatState` from `useThreatDetection.ts`: per-kind time of the last
alert, initially `null`. -/
structure ThreatState where
  lastWeaponAlert : Option Int
  lastSOSAlert : Option Int
deriving DecidableEq

/-- The initial `threatStateRef` value. -/
def initialThreatState : ThreatState := ⟨none, none⟩

/-- `ALERT_DEBOUNCE_MS` from `useThreatDetection.ts`. -/
def ALERT_DEBOUNCE_MS : Int := 5000

/-- The per-kind last-alert timestamp consulted by `createAlert`. -/
def lastAlertOf (k : ThreatAlertKind) (st : ThreatState) : Option Int :=
  match k with
  | ThreatAlertKind.weapon => st.lastWeaponAlert
  | ThreatAlertKind.sos => st.lastSOSAlert

/-- The debounce test of `createAlert` (`useThreatDetection.ts` lines
290-299): `if (lastX && now - lastX < ALERT_DEBOUNCE_MS) return null`.
The outer `lastX &&` is JavaScript truthiness, so a stored timestamp of `0`
disables the debounce. -/
def threatDebounced (k : ThreatAlertKind) (now : Int) (st : ThreatState) : Bool :=
  match lastAlertOf k st with
  | none => false
  | some t => t != 0 && decide (now - t < ALERT_DEBOUNCE_MS)

/-- `createAlert` from `useThreatDetection.ts` (lines 281-330): returns
`null` when debounced, otherwise records `now` as the kind's last-alert time
and builds the `AlertEvent` (`weapon` maps to alert type `threat`). -/
def createAlert (k : ThreatAlertKind) (now : Int) (cameraId cameraName : String)
    (frameData : Option String) (st : ThreatState) : Option AlertEvent × ThreatState :=
  if threatDebounced k now st then (none, st)
  else
    let st' : ThreatState :=
      match k with
      | ThreatAlertKind.weapon => { st with lastWeaponAlert := some now }
      | ThreatAlertKind.sos => { st with lastSOSAlert := some now }
    (some
      { id := "alert-" ++ toString now
        type := match k with
          | ThreatAlertKind.weapon => AlertType.threat
          | ThreatAlertKind.sos => AlertType.sos
        message := match k with
          | ThreatAlertKind.weapon => "⚠️ WEAPON DETECTED - Immediate response required!"
          | ThreatAlertKind.sos => "🆘 SOS GESTURE DETECTED - Person signaling for help!"
        cameraId := cameraId
        cameraName := cameraName
        timestamp := now
        snapshot := frameData
        acknowledged := false }, st')

/-- The fields of `AudioDetectionResult` (`useAudioDetection.ts`) consumed by
the Dashboard's `handleAudioThreat` (the `allPredictions` display list is
elided). Confidences are scaled to integer hundredths throughout this file
(the source's float 0.85 is the integer 85): every use the embedded code
makes of a confidence is an order comparison against a constant threshold or
a display string, and the scaling preserves both. -/
structure AudioDetectionResult where
  topClass : String
  confidence : Int
  isThreat : Bool
deriving DecidableEq

/-- The alert message interpolated by `handleAudioThreat`
(`Dashboard.tsx` line 77). -/
def soundAlertMessage (r : AudioDetectionResult) : String :=
  "🔊 SOUND ALERT: " ++ r.topClass ++ " detected ("
    ++ toString r.confidence ++ "% confidence)"

/-- `handleAudioThreat` from `Dashboard.tsx` (lines 72-96), restricted to its
effect on the store: on a threat it calls `addAlert` with a sound alert and
then sets the campus status to Alert, with no cooldown check of any kind.
The camera lookup is abstracted into the `cameraId`/`cameraName` arguments
and the fire-and-forget `sendEmergencyAlert` call touches only the separate
dispatch state modelled below. -/
def handleAudioThreat (r : AudioDetectionResult) (now : Int)
    (cameraId cameraName : String) (s : DemoState) : DemoState :=
  if r.isThreat then
    let s1 := addAlert
      { type := AlertType.sound
        message := soundAlertMessage r
        cameraId := cameraId
        cameraName := cameraName
        snapshot := none } now s
    { s1 with campusStatus := CampusStatus.alert }
  else s

/-- A confirmed scream detection above the 0.3 acoustic threshold. -/
def screamResult : AudioDetectionResult :=
  { topClass := "Scream", confidence := 85, isThreat := true }

/-- Claim C2, counterexample: two confirmed Sound events 1000 ms apart —
well under the claimed 5000 ms cooldown — both produce alert records,
because the sound path (`handleAudioThreat` → `addAlert`) performs no
cooldown check at all. -/
theorem sound_alerts_have_no_cooldown :
    (handleAudioThreat screamResult 2000 "mobile-cam" "Main Gate (Mobile)"
        (handleAudioThreat screamResult 1000 "mobile-cam" "Main Gate (Mobile)"
          secureState)).alerts.length = 2
    ∧ (2000 : Int) - 1000 < 5000 := by
  decide

/-- Claim C2, amended: the 5000 ms same-type cooldown holds for the Weapon
and SOS kinds handled by `createAlert` — after an admitted first alert at a
positive time `now1`, a second event of the same kind less than 5000 ms
later returns `none` and one 5000 ms or more later returns an alert — while
confirmed Sound events bypass the engine cooldown entirely: every one of
them appends a record (up to the 20-record cap), and no code path creates
Intrusion alerts. -/
theorem createAlert_admits (k : ThreatAlertKind) (now : Int) (cid cn : String)
    (fd : Option String) (st : ThreatState)
    (h : threatDebounced k now st = false) :
    (createAlert k now cid cn fd st).1.isSome = true
    ∧ lastAlertOf k (createAlert k now cid cn fd st).2 = some now := by
  cases k <;> simp [createAlert, h, lastAlertOf]

theorem createAlert_suppresses (k : ThreatAlertKind) (now : Int) (cid cn : String)
    (fd : Option String) (st : ThreatState)
    (h : threatDebounced k now st = true) :
    createAlert k now cid cn fd st = (none, st) := by
  simp [createAlert, h]

theorem createAlert_same_type_cooldown (k : ThreatAlertKind) (now1 now2 : Int)
    (cid cn cid2 cn2 : String) (fd fd2 : Option String) (st0 : ThreatState)
    (hfirst : threatDebounced k now1 st0 = false)
    (hpos : 0 < now1) :
    (createAlert k now1 cid cn fd st0).1.isSome = true
    ∧ (now2 - now1 < 5000 →
        (createAlert k now2 cid2 cn2 fd2 (createAlert k now1 cid cn fd st0).2).1 = none)
    ∧ (5000 ≤ now2 - now1 →
        (createAlert k now2 cid2 cn2 fd2 (createAlert k now1 cid cn fd st0).2).1.isSome = true)
    ∧ (∀ (r : AudioDetectionResult) (now : Int) (cj cm : String) (s : DemoState),
        r.isThreat = true →
        (handleAudioThreat r now cj cm s).alerts.length = min (s.alerts.length + 1) 20) := by
  have hne : (now1 != 0) = true := by
    simp only [bne_iff_ne, ne_eq]
    omega
  have h1 := createAlert_admits k now1 cid cn fd st0 hfirst
  refine ⟨h1.1, ?_, ?_, ?_⟩
  · intro hlt
    have hdeb : threatDebounced k now2 (createAlert k now1 cid cn fd st0).2 = true := by
      unfold threatDebounced
      rw [h1.2]
      simp [ALERT_DEBOUNCE_MS, hne, hlt]
    rw [createAlert_suppresses k now2 cid2 cn2 fd2 _ hdeb]
  · intro hge
    have hdeb : threatDebounced k now2 (createAlert k now1 cid cn fd st0).2 = false := by
      unfold threatDebounced
      rw [h1.2]
      simp only [Bool.and_eq_false_iff, decide_eq_false_iff_not, not_lt, ALERT_DEBOUNCE_MS]
      right
      omega
    exact (createAlert_admits k now2 cid2 cn2 fd2 _ hdeb).1
  · intro r now cj cm s hthreat
    simp only [handleAudioThreat, hthreat, if_true, addAlert, List.length_take,
      List.length_cons]
    omega

/-- Witness for `createAlert_same_type_cooldown` at concrete inputs. -/
theorem createAlert_same_type_cooldown_witness :
    (createAlert ThreatAlertKind.weapon 1000 "mobile-cam" "Main Gate (Mobile)" none
        initialThreatState).1.isSome = true
    ∧ ((4000 : Int) - 1000 < 5000 →
        (createAlert ThreatAlertKind.weapon 4000 "mobile-cam" "Main Gate (Mobile)" none
          (createAlert ThreatAlertKind.weapon 1000 "mobile-cam" "Main Gate (Mobile)" none
            initialThreatState).2).1 = none)
    ∧ ((5000 : Int) ≤ 4000 - 1000 →
        (createAlert ThreatAlertKind.weapon 4000 "mobile-cam" "Main Gate (Mobile)" none
          (createAlert ThreatAlertKind.weapon 1000 "mobile-cam" "Main Gate (Mobile)" none
            initialThreatState).2).1.isSome = true)
    ∧ (∀ (r : AudioDetectionResult) (now : Int) (cj cm : String) (s : DemoState),
        r.isThreat = true →
        (handleAudioThreat r now cj cm s).alerts.length = min (s.alerts.length + 1) 20) :=
  createAlert_same_type_cooldown ThreatAlertKind.weapon 1000 4000
    "mobile-cam" "Main Gate (Mobile)" "mobile-cam" "Main Gate (Mobile)" none none
    initialThreatState (by decide) (by decide)

/-! ### Vision weapon channel: `useWeaponDetection.detectWeapons`
(strict variant, consecutive confirmation) -/

/-- A `WeaponDetection` as built by the strict `detectWeapons`
(`useWeaponDetection.ts` lines 531-541); the bounding box is the constant
`{ x: 30, y: 30, width: 20, height: 25 }` folded into the record. -/
structure WeaponDetection where
  id : String
  cls : String
  confidence : Int
  boxX : Int
  boxY : Int
  boxWidth : Int
  boxHeight : Int
deriving DecidableEq

/-- The outcome of `analyzeForWeapons` on one frame
(`useWeaponDetection.ts` lines 410-492): a detected flag (confidence above
the internal 0.82 minimum with all pixel criteria met), the combined
confidence, and the inferred weapon type. The pixel analysis itself is
floating-point image processing and enters the model only through this
record. -/
structure WeaponAnalysis where
  detected : Bool
  confidence : Int
  weaponType : String
deriving DecidableEq

/-- The mutable refs of the strict `useWeaponDetection`:
`lastProcessedRef` (initially 0), `consecutiveDetectionsRef` (initially 0)
and `cachedDetectionsRef` (initially `[]`). -/
structure WeaponState where
  lastProcessed : Int
  consecutive : Nat
  cached : List WeaponDetection
deriving DecidableEq

/-- The initial ref values of `useWeaponDetection`. -/
def initialWeaponState : WeaponState := ⟨0, 0, []⟩

/-- `DETECTION_INTERVAL_MS` of the strict `useWeaponDetection` (1000 ms). -/
def WEAPON_DETECTION_INTERVAL_MS : Int := 1000

/-- `REQUIRED_CONSECUTIVE` from `useWeaponDetection.ts` line 377. -/
def REQUIRED_CONSECUTIVE : Nat := 3

/-- One call of the strict `detectWeapons` (`useWeaponDetection.ts` lines
495-561), parameterised by `confidenceThreshold` (default 0.85): frames
within 1000 ms of the last processed one return the cached detections
untouched; a qualifying analysis (`detected` and confidence above the
threshold) increments the consecutive counter, emitting a confirmed
detection and resetting the counter once it reaches 3; any other analysis
resets the counter to 0. Non-confirming calls clear the cache and return
`[]`. -/
def detectWeapons (confidenceThreshold : Int) (st : WeaponState) (now : Int)
    (result : WeaponAnalysis) : List WeaponDetection × WeaponState :=
  if now - st.lastProcessed < WEAPON_DETECTION_INTERVAL_MS then
    (st.cached, st)
  else
    let st1 : WeaponState := { st with lastProcessed := now }
    if result.detected && decide (confidenceThreshold < result.confidence) then
      let consec := st1.consecutive + 1
      if REQUIRED_CONSECUTIVE ≤ consec then
        let d : WeaponDetection :=
          { id := "weapon-" ++ toString now
            cls := result.weaponType
            confidence := result.confidence
            boxX := 30, boxY := 30, boxWidth := 20, boxHeight := 25 }
        ([d], { st1 with consecutive := 0, cached := [d] })
      else
        ([], { st1 with consecutive := consec, cached := [] })
    else
      ([], { st1 with consecutive := 0, cached := [] })

/-- Iterated `detectWeapons` over a timestamped sequence of frame analyses,
collecting the emitted detection lists. -/
def runWeapons (confidenceThreshold : Int) (st : WeaponState) :
    List (Int × WeaponAnalysis) → List (List WeaponDetection) × WeaponState
  | [] => ([], st)
  | (now, r) :: rest =>
    let step := detectWeapons confidenceThreshold st now r
    let tail := runWeapons confidenceThreshold step.2 rest
    (step.1 :: tail.1, tail.2)

/-- Claim C3: for the weapon channel, starting from a zero consecutive count,
two processed qualifying detections emit nothing (and leave the count at 2);
the third consecutive qualifying detection — here within 3000 ms of the
first — emits a confirmed detection and resets the count to zero; and any
processed non-qualifying frame resets the count to zero. Frames are
processed when they fall outside the 1000 ms rate-limit window, which is
what consecutive analysed detections are. -/
theorem weapon_third_consecutive_confirms (θ : Int) (st : WeaponState)
    (t1 t2 t3 : Int) (r1 r2 r3 : WeaponAnalysis)
    (hc0 : st.consecutive = 0)
    (h1 : WEAPON_DETECTION_INTERVAL_MS ≤ t1 - st.lastProcessed)
    (h2 : WEAPON_DETECTION_INTERVAL_MS ≤ t2 - t1)
    (h3 : WEAPON_DETECTION_INTERVAL_MS ≤ t3 - t2)
    (_hwin : t3 - t1 ≤ 3000)
    (hq1 : r1.detected = true) (hc1 : θ < r1.confidence)
    (hq2 : r2.detected = true) (hc2 : θ < r2.confidence)
    (hq3 : r3.detected = true) (hc3 : θ < r3.confidence) :
    (detectWeapons θ st t1 r1).1 = []
    ∧ (detectWeapons θ (detectWeapons θ st t1 r1).2 t2 r2).1 = []
    ∧ ((detectWeapons θ (detectWeapons θ st t1 r1).2 t2 r2).2).consecutive = 2
    ∧ (detectWeapons θ
        ((detectWeapons θ (detectWeapons θ st t1 r1).2 t2 r2).2) t3 r3).1 ≠ []
    ∧ ((detectWeapons θ
        ((detectWeapons θ (detectWeapons θ st t1 r1).2 t2 r2).2) t3 r3).2).consecutive = 0
    ∧ (∀ (st' : WeaponState) (now : Int) (r : WeaponAnalysis),
        WEAPON_DETECTION_INTERVAL_MS ≤ now - st'.lastProcessed →
        (r.detected = false ∨ r.confidence ≤ θ) →
        (detectWeapons θ st' now r).1 = []
        ∧ ((detectWeapons θ st' now r).2).consecutive = 0) := by
  simp only [WEAPON_DETECTION_INTERVAL_MS] at h1 h2 h3
  have e1 : detectWeapons θ st t1 r1 = ([], ⟨t1, 1, []⟩) := by
    simp [detectWeapons, WEAPON_DETECTION_INTERVAL_MS, REQUIRED_CONSECUTIVE,
      hq1, hc1, hc0]
    omega
  have e2 : detectWeapons θ (⟨t1, 1, []⟩ : WeaponState) t2 r2 = ([], ⟨t2, 2, []⟩) := by
    simp [detectWeapons, WEAPON_DETECTION_INTERVAL_MS, REQUIRED_CONSECUTIVE, hq2, hc2]
    omega
  have e3 : detectWeapons θ (⟨t2, 2, []⟩ : WeaponState) t3 r3
      = ([⟨"weapon-" ++ toString t3, r3.weaponType, r3.confidence, 30, 30, 20, 25⟩],
         ⟨t3, 0, [⟨"weapon-" ++ toString t3, r3.weaponType, r3.confidence, 30, 30, 20, 25⟩]⟩) := by
    simp [detectWeapons, WEAPON_DETECTION_INTERVAL_MS, REQUIRED_CONSECUTIVE, hq3, hc3]
    omega
  refine ⟨by rw [e1], by rw [e1, e2], by rw [e1, e2], by rw [e1, e2, e3]; simp,
    by rw [e1, e2, e3], ?_⟩
  intro st' now r hp hnq
  have hguard : (r.detected && decide (θ < r.confidence)) = false := by
    rcases hnq with h | h
    · simp [h]
    · simp [decide_eq_false_iff_not, not_lt, h]
  have hrate : ¬ (now - st'.lastProcessed < WEAPON_DETECTION_INTERVAL_MS) := by
    simp only [WEAPON_DETECTION_INTERVAL_MS] at hp ⊢
    omega
  simp [detectWeapons, hrate, hguard]

/-- A frame analysis qualifying against the default 0.85 threshold. -/
def qualAnalysis : WeaponAnalysis :=
  { detected := true, confidence := 90, weaponType := "firearm" }

/-- A frame analysis far below every threshold. -/
def lowAnalysis : WeaponAnalysis :=
  { detected := false, confidence := 10, weaponType := "none" }

/-- Witness for `weapon_third_consecutive_confirms` at threshold 0.85 with
qualifying frames at 1000, 2000 and 3000 ms. -/
theorem weapon_third_consecutive_confirms_witness :
    (detectWeapons 85 initialWeaponState 1000 qualAnalysis).1 = []
    ∧ (detectWeapons 85
        (detectWeapons 85 initialWeaponState 1000 qualAnalysis).2 2000 qualAnalysis).1 = []
    ∧ ((detectWeapons 85
        (detectWeapons 85 initialWeaponState 1000 qualAnalysis).2 2000 qualAnalysis).2).consecutive = 2
    ∧ (detectWeapons 85
        ((detectWeapons 85
          (detectWeapons 85 initialWeaponState 1000 qualAnalysis).2 2000 qualAnalysis).2)
        3000 qualAnalysis).1 ≠ []
    ∧ ((detectWeapons 85
        ((detectWeapons 85
          (detectWeapons 85 initialWeaponState 1000 qualAnalysis).2 2000 qualAnalysis).2)
        3000 qualAnalysis).2).consecutive = 0
    ∧ (∀ (st' : WeaponState) (now : Int) (r : WeaponAnalysis),
        WEAPON_DETECTION_INTERVAL_MS ≤ now - st'.lastProcessed →
        (r.detected = false ∨ r.confidence ≤ 85) →
        (detectWeapons 85 st' now r).1 = []
        ∧ ((detectWeapons 85 st' now r).2).consecutive = 0) :=
  weapon_third_consecutive_confirms 85 initialWeaponState 1000 2000 3000
    qualAnalysis qualAnalysis qualAnalysis rfl (by decide) (by decide) (by decide)
    (by decide) rfl (by decide) rfl (by decide) rfl (by decide)

/-! ### Below-threshold signals (weapon and acoustic channels) -/

/-- The threat flag computed by `processAudioBuffer`
(`useAudioDetection.ts` lines 102-123): `isThreat` can only become true in
the high-amplitude, high-variance branch, and there it is
`confidence > confidenceThreshold`. The RMS/variance computation on the raw
buffer is floating-point signal processing and enters the model through the
two boolean flags. -/
def processAudioThreatFlag (hasHighAmplitude hasHighVariance : Bool)
    (confidence confidenceThreshold : Int) : Bool :=
  hasHighAmplitude && hasHighVariance && decide (confidenceThreshold < confidence)

/-- Claim C5, counterexample: a below-threshold frame arriving 500 ms after
a confirmed weapon detection falls inside the 1000 ms rate-limit window of
`detectWeapons`, which then returns the cached confirmed detection instead
of resetting the state and emitting nothing. -/
theorem below_threshold_frame_emits_cached :
    lowAnalysis.confidence < 85
    ∧ ((runWeapons 85 initialWeaponState
        [(1000, qualAnalysis), (2000, qualAnalysis), (3000, qualAnalysis),
          (3500, lowAnalysis)]).1.getD 3 [] ≠ []) := by
  decide

theorem runWeapons_below_threshold (θ : Int) (l : List (Int × WeaponAnalysis)) :
    ∀ st : WeaponState, st.cached = [] → st.consecutive = 0 →
      (∀ p ∈ l, (p.2).confidence < θ) →
      (∀ out ∈ (runWeapons θ st l).1, out = [])
      ∧ ((runWeapons θ st l).2).cached = []
      ∧ ((runWeapons θ st l).2).consecutive = 0 := by
  induction l with
  | nil =>
    intro st h1 h2 _
    simp [runWeapons, h1, h2]
  | cons p rest ih =>
    obtain ⟨now, r⟩ := p
    intro st h1 h2 hall
    have hconf : r.confidence < θ := hall (now, r) (List.mem_cons_self _ _)
    have htail : ∀ q ∈ rest, (q.2).confidence < θ :=
      fun q hq => hall q (List.mem_cons_of_mem _ hq)
    have hguard : (r.detected && decide (θ < r.confidence)) = false := by
      simp [decide_eq_false_iff_not, not_lt, le_of_lt hconf]
    by_cases hrate : now - st.lastProcessed < WEAPON_DETECTION_INTERVAL_MS
    · have estep : detectWeapons θ st now r = (st.cached, st) := by
        simp [detectWeapons, hrate]
      have := ih st h1 h2 htail
      simp only [runWeapons, estep]
      exact ⟨fun out hout => by
        rcases List.mem_cons.mp hout with h | h
        · rw [h, h1]
        · exact this.1 out h, this.2.1, this.2.2⟩
    · have estep : detectWeapons θ st now r = ([], ⟨now, 0, []⟩) := by
        simp [detectWeapons, hrate, hguard]
      have := ih ⟨now, 0, []⟩ rfl rfl htail
      simp only [runWeapons, estep]
      exact ⟨fun out hout => by
        rcases List.mem_cons.mp hout with h | h
        · exact h
        · exact this.1 out h, this.2.1, this.2.2⟩

/-- Claim C5, amended: from the detector's initial state, a sequence made
entirely of below-threshold signals never emits anything on the weapon
channel and leaves the consecutive count at zero; a below-threshold frame
*processed* by the detector (outside the 1000 ms rate-limit window) resets
the count to zero and emits nothing, whereas a rate-limited frame is not
analysed at all and returns the cached detections unchanged; and on the
acoustic channel a below-threshold buffer never sets the threat flag, so
the Dashboard sound handler leaves the store untouched. -/
theorem below_threshold_never_confirms (θ θa : Int) :
    (∀ l : List (Int × WeaponAnalysis), (∀ p ∈ l, (p.2).confidence < θ) →
      (∀ out ∈ (runWeapons θ initialWeaponState l).1, out = [])
      ∧ ((runWeapons θ initialWeaponState l).2).consecutive = 0)
    ∧ (∀ (st : WeaponState) (now : Int) (r : WeaponAnalysis),
        ¬ (now - st.lastProcessed < WEAPON_DETECTION_INTERVAL_MS) →
        r.confidence < θ →
        (detectWeapons θ st now r).1 = []
        ∧ ((detectWeapons θ st now r).2).consecutive = 0)
    ∧ (∀ (st : WeaponState) (now : Int) (r : WeaponAnalysis),
        now - st.lastProcessed < WEAPON_DETECTION_INTERVAL_MS →
        detectWeapons θ st now r = (st.cached, st))
    ∧ (∀ (hasHighAmplitude hasHighVariance : Bool) (confidence : Int),
        confidence < θa →
        processAudioThreatFlag hasHighAmplitude hasHighVariance confidence θa = false)
    ∧ (∀ (r : AudioDetectionResult) (now : Int) (cid cn : String) (s : DemoState),
        r.isThreat = false → handleAudioThreat r now cid cn s = s) := by
  refine ⟨?_, ?_, ?_, ?_, ?_⟩
  · intro l hall
    have := runWeapons_below_threshold θ l initialWeaponState rfl rfl hall
    exact ⟨this.1, this.2.2⟩
  · intro st now r hrate hconf
    have hguard : (r.detected && decide (θ < r.confidence)) = false := by
      simp [decide_eq_false_iff_not, not_lt, le_of_lt hconf]
    simp [detectWeapons, hrate, hguard]
  · intro st now r hrate
    simp [detectWeapons, hrate]
  · intro amp hvar confidence hconf
    simp [processAudioThreatFlag, decide_eq_false_iff_not, not_lt, le_of_lt hconf]
  · intro r now cid cn s hflag
    simp [handleAudioThreat, hflag]

/-- Witness for `below_threshold_never_confirms` at concrete inputs. -/
theorem below_threshold_never_confirms_witness :
    (detectWeapons 85 initialWeaponState 1000 lowAnalysis).1 = []
    ∧ ((detectWeapons 85 initialWeaponState 1000 lowAnalysis).2).consecutive = 0 :=
  (below_threshold_never_confirms 85 30).2.1 initialWeaponState 1000 lowAnalysis
    (by decide) (by decide)

/-! ### Posture/gesture SOS channel: `usePoseDetection.detectPose` -/

/-- `SOSState` from `usePoseDetection.ts`:
`{ isDetected, startTime (nullable), duration }`. -/
structure SOSState where
  isDetected : Bool
  startTime : Option Int
  duration : Int
deriving DecidableEq

/-- The refs of `usePoseDetection`: the SOS state and `lastProcessedTimeRef`
(initially 0). -/
structure PoseState where
  sos : SOSState
  lastProcessedTime : Int
deriving DecidableEq

/-- The initial ref values of `usePoseDetection`. -/
def initialPoseState : PoseState := ⟨⟨false, none, 0⟩, 0⟩

/-- One observation consumed by `detectPose`: the `performance.now()` clock
used for throttling, the `Date.now()` clock used for duration accumulation,
whether any pose landmarks were found, and the `checkArmsRaised` verdict on
them (both wrists above the shoulders). -/
structure PoseObs where
  perfNow : Int
  dateNow : Int
  hasLandmarks : Bool
  armsRaised : Bool
deriving DecidableEq

/-- `PoseDetectionResult` from `usePoseDetection.ts`. -/
structure PoseResult where
  sosTriggered : Bool
  armsRaised : Bool
  duration : Int
deriving DecidableEq

/-- `SOS_TRIGGER_DURATION` from `usePoseDetection.ts` (3000 ms). -/
def SOS_TRIGGER_DURATION : Int := 3000

/-- `resetSOSState` from `usePoseDetection.ts`: clears the SOS state; it is
called by the Dashboard, not by `detectPose` itself. -/
def resetSOSState (st : PoseState) : PoseState :=
  { st with sos := ⟨false, none, 0⟩ }

/-- One call of `detectPose` (`usePoseDetection.ts` lines 92-150). Calls
within 66 ms of the last processed one return early without touching the
SOS state. Otherwise, with landmarks present and arms raised, the start
time is kept unless it is absent-or-zero (`if (!startTime)` — JavaScript
truthiness) and the accumulated duration `Date.now() - startTime` triggers
the SOS result once it reaches 3000 ms; the state is *not* reset on
trigger. A processed tick without raised arms (or without landmarks)
resets the SOS state to zero. -/
def detectPose (st : PoseState) (o : PoseObs) : PoseResult × PoseState :=
  if o.perfNow - st.lastProcessedTime < 66 then
    (⟨false, st.sos.isDetected, st.sos.duration⟩, st)
  else
    let st1 : PoseState := { st with lastProcessedTime := o.perfNow }
    if o.hasLandmarks then
      if o.armsRaised then
        let start : Int :=
          match st1.sos.startTime with
          | some t => if t = 0 then o.dateNow else t
          | none => o.dateNow
        let dur := o.dateNow - start
        let st2 : PoseState := { st1 with sos := ⟨true, some start, dur⟩ }
        if SOS_TRIGGER_DURATION ≤ dur then
          (⟨true, true, dur⟩, st2)
        else
          (⟨false, true, dur⟩, st2)
      else
        (⟨false, false, 0⟩, { st1 with sos := ⟨false, none, 0⟩ })
    else
      (⟨false, false, 0⟩, { st1 with sos := ⟨false, none, 0⟩ })

/-- Iterated `detectPose` over a sequence of observations, collecting the
per-tick results. -/
def runPose (st : PoseState) : List PoseObs → List PoseResult × PoseState
  | [] => ([], st)
  | o :: rest =>
    let step := detectPose st o
    let tail := runPose step.2 rest
    (step.1 :: tail.1, tail.2)

/-- Claim C4, counterexample: arms raised continuously across three
processed ticks whose `Date.now()` readings are 1000, 4000 and 4100 — a
single continuous hold of at least 3000 ms — makes `detectPose` report
`sosTriggered` on the second *and* the third tick: the trigger fires on
every processed tick from the threshold crossing on, not exactly once,
because `detectPose` does not consume its state when it triggers. -/
theorem sos_triggers_more_than_once :
    ((runPose initialPoseState
        [⟨100, 1000, true, true⟩, ⟨200, 4000, true, true⟩,
          ⟨300, 4100, true, true⟩]).1.map PoseResult.sosTriggered)
      = [false, true, true] := by
  decide

theorem runPose_qualifying_short (s0 : Int) (hs0 : s0 ≠ 0) (l : List PoseObs)
    (hall : ∀ o ∈ l, o.hasLandmarks = true ∧ o.armsRaised = true
      ∧ o.dateNow - s0 < SOS_TRIGGER_DURATION) :
    ∀ (b : Bool) (d0 lp : Int),
      ∀ r ∈ (runPose ⟨⟨b, some s0, d0⟩, lp⟩ l).1, r.sosTriggered = false := by
  induction l with
  | nil => intro b d0 lp r hr; simp [runPose] at hr
  | cons o rest ih =>
    intro b d0 lp r hr
    have ho := hall o (List.mem_cons_self _ _)
    have htail : ∀ q ∈ rest, q.hasLandmarks = true ∧ q.armsRaised = true
        ∧ q.dateNow - s0 < SOS_TRIGGER_DURATION :=
      fun q hq => hall q (List.mem_cons_of_mem _ hq)
    by_cases hrate : o.perfNow - lp < 66
    · have estep : detectPose ⟨⟨b, some s0, d0⟩, lp⟩ o = (⟨false, b, d0⟩, ⟨⟨b, some s0, d0⟩, lp⟩) := by
        simp [detectPose, hrate]
      rw [runPose] at hr
      simp only [estep] at hr
      rcases List.mem_cons.mp hr with h | h
      · rw [h]
      · exact ih htail b d0 lp r h
    · have estep : detectPose ⟨⟨b, some s0, d0⟩, lp⟩ o
          = (⟨false, true, o.dateNow - s0⟩, ⟨⟨true, some s0, o.dateNow - s0⟩, o.perfNow⟩) := by
        simp [detectPose, hrate, ho.1, ho.2.1, hs0, not_le.mpr ho.2.2]
      rw [runPose] at hr
      simp only [estep] at hr
      rcases List.mem_cons.mp hr with h | h
      · rw [h]
      · exact ih htail true (o.dateNow - s0) o.perfNow r h

/-- Claim C4, amended: on a processed tick without the qualifying condition
(arms not raised, or no landmarks) `detectPose` reports no trigger and
resets the accumulated state to zero; a run of qualifying observations
whose dates all stay within 3000 ms of the (nonzero) run start never
triggers; the first qualifying processed tick of a fresh run records the
run start and never triggers; and once a qualifying processed tick reaches
an accumulated duration of 3000 ms the trigger fires — but the run start is
kept, so every further qualifying processed tick of the same hold triggers
again until `resetSOSState` clears the state externally. -/
theorem detectPose_duration_policy :
    (∀ (st : PoseState) (o : PoseObs), 66 ≤ o.perfNow - st.lastProcessedTime →
      ¬ (o.hasLandmarks = true ∧ o.armsRaised = true) →
      (detectPose st o).1.sosTriggered = false
      ∧ (detectPose st o).2.sos = ⟨false, none, 0⟩)
    ∧ (∀ (s0 : Int), s0 ≠ 0 → ∀ l : List PoseObs,
        (∀ o ∈ l, o.hasLandmarks = true ∧ o.armsRaised = true
          ∧ o.dateNow - s0 < SOS_TRIGGER_DURATION) →
        ∀ (b : Bool) (d0 lp : Int),
          ∀ r ∈ (runPose ⟨⟨b, some s0, d0⟩, lp⟩ l).1, r.sosTriggered = false)
    ∧ (∀ (st : PoseState) (o : PoseObs), 66 ≤ o.perfNow - st.lastProcessedTime →
        st.sos.startTime = none → o.hasLandmarks = true → o.armsRaised = true →
        (detectPose st o).1.sosTriggered = false
        ∧ (detectPose st o).2.sos.startTime = some o.dateNow)
    ∧ (∀ (st : PoseState) (o : PoseObs) (s0 : Int),
        66 ≤ o.perfNow - st.lastProcessedTime →
        st.sos.startTime = some s0 → s0 ≠ 0 →
        o.hasLandmarks = true → o.armsRaised = true →
        SOS_TRIGGER_DURATION ≤ o.dateNow - s0 →
        (detectPose st o).1.sosTriggered = true
        ∧ (detectPose st o).2.sos.startTime = some s0
        ∧ (resetSOSState (detectPose st o).2).sos.startTime = none) := by
  refine ⟨?_, ?_, ?_, ?_⟩
  · intro st o hp hnq
    have hrate : ¬ (o.perfNow - st.lastProcessedTime < 66) := by omega
    rcases Decidable.not_and_iff_or_not.mp hnq with h | h
    · have hl : o.hasLandmarks = false := by
        cases hhl : o.hasLandmarks
        · rfl
        · exact absurd hhl h
      simp [detectPose, hrate, hl]
    · have ha : o.armsRaised = false := by
        cases hha : o.armsRaised
        · rfl
        · exact absurd hha h
      cases hhl : o.hasLandmarks <;> simp [detectPose, hrate, hhl, ha]
  · exact fun s0 hs0 l hall => runPose_qualifying_short s0 hs0 l hall
  · intro st o hp hnone hl ha
    have hrate : ¬ (o.perfNow - st.lastProcessedTime < 66) := by omega
    simp [detectPose, hrate, hl, ha, hnone, SOS_TRIGGER_DURATION]
  · intro st o s0 hp hsome hs0 hl ha hdur
    have hrate : ¬ (o.perfNow - st.lastProcessedTime < 66) := by omega
    simp [detectPose, hrate, hl, ha, hsome, hs0, hdur, resetSOSState]

/-- Witness for `detectPose_duration_policy` at concrete inputs: a
processed arms-down tick resets the state and does not trigger. -/
theorem detectPose_duration_policy_witness :
    (detectPose initialPoseState ⟨100, 1000, true, false⟩).1.sosTriggered = false
    ∧ (detectPose initialPoseState ⟨100, 1000, true, false⟩).2.sos
        = ⟨false, none, 0⟩ :=
  detectPose_duration_policy.1 initialPoseState ⟨100, 1000, true, false⟩
    (by decide) (by decide)

/-! ### Dispatch coordinator: `useEmergencyDispatch.sendEmergencyAlert` -/

/-- Possible fates of the `supabase.functions.invoke("emergency-dispatch")`
call inside `sendEmergencyAlert`: it resolves cleanly, resolves with an
`error` value, or throws (caught by the surrounding `try`). -/
inductive InvokeOutcome
  | ok
  | invokeError
  | thrown
deriving DecidableEq

/-- The value `sendEmergencyAlert` returns:
`{ success: false, reason: "debounced" }`, `{ success: true, response }`,
or `{ success: false, error }`. -/
inductive DispatchResult
  | debounced
  | sent
  | failed
deriving DecidableEq

/-- The dispatch hook's state: `lastSentAt`, initially `null`. -/
structure DispatchState where
  lastSentAt : Option Int
deriving DecidableEq

/-- The initial `useEmergencyDispatch` state. -/
def initialDispatchState : DispatchState := ⟨none⟩

/-- `DEBOUNCE_MS` from `useEmergencyDispatch.ts` (30000 ms). -/
def DISPATCH_DEBOUNCE_MS : Int := 30000

/-- The debounce test of `sendEmergencyAlert` (`useEmergencyDispatch.ts`
line 24): `if (lastSentAt && now - lastSentAt < DEBOUNCE_MS)`. The leading
`lastSentAt &&` is JavaScript truthiness, so a stored timestamp of `0`
disables the debounce. -/
def dispatchDebounced (st : DispatchState) (now : Int) : Bool :=
  match st.lastSentAt with
  | none => false
  | some t => t != 0 && decide (now - t < DISPATCH_DEBOUNCE_MS)

/-- One call of `sendEmergencyAlert` (`useEmergencyDispatch.ts` lines
20-62): inside the debounce window it returns the debounced result without
invoking the edge function and without touching `lastSentAt`; otherwise it
sets `lastSentAt := now` *before* awaiting the invocation, then performs
the invocation whatever its outcome. The second component records whether
an outbound invocation was attempted. -/
def sendEmergencyAlert (st : DispatchState) (now : Int) (outcome : InvokeOutcome) :
    DispatchResult × Bool × DispatchState :=
  if dispatchDebounced st now then
    (DispatchResult.debounced, false, st)
  else
    (match outcome with
      | InvokeOutcome.ok => DispatchResult.sent
      | InvokeOutcome.invokeError => DispatchResult.failed
      | InvokeOutcome.thrown => DispatchResult.failed,
     true, ⟨some now⟩)

/-- Claim C6: with a previous dispatch recorded at a (positive) time `t`,
a call less than 30000 ms later returns the debounced result, attempts no
outbound invocation and leaves the state unchanged, whatever the alert
would have been; a call 30000 ms or more later attempts delivery. -/
theorem dispatch_global_cooldown (st : DispatchState) (t now : Int)
    (outcome : InvokeOutcome) (hlast : st.lastSentAt = some t) (hpos : 0 < t) :
    (now - t < 30000 →
      sendEmergencyAlert st now outcome = (DispatchResult.debounced, false, st))
    ∧ (30000 ≤ now - t →
      (sendEmergencyAlert st now outcome).2.1 = true
      ∧ (sendEmergencyAlert st now outcome).2.2 = ⟨some now⟩) := by
  have hne : (t != 0) = true := by
    simp only [bne_iff_ne, ne_eq]
    omega
  constructor
  · intro hlt
    have hdeb : dispatchDebounced st now = true := by
      unfold dispatchDebounced
      rw [hlast]
      simp [DISPATCH_DEBOUNCE_MS, hne, hlt]
    simp [sendEmergencyAlert, hdeb]
  · intro hge
    have hdeb : dispatchDebounced st now = false := by
      unfold dispatchDebounced
      rw [hlast]
      simp only [Bool.and_eq_false_iff, decide_eq_false_iff_not, not_lt,
        DISPATCH_DEBOUNCE_MS]
      right
      omega
    simp [sendEmergencyAlert, hdeb]

/-- Witness for `dispatch_global_cooldown` at concrete inputs. -/
theorem dispatch_global_cooldown_witness :
    ((10000 : Int) - 5000 < 30000 →
      sendEmergencyAlert ⟨some 5000⟩ 10000 InvokeOutcome.ok
        = (DispatchResult.debounced, false, ⟨some 5000⟩))
    ∧ ((30000 : Int) ≤ 10000 - 5000 →
      (sendEmergencyAlert ⟨some 5000⟩ 10000 InvokeOutcome.ok).2.1 = true
      ∧ (sendEmergencyAlert ⟨some 5000⟩ 10000 InvokeOutcome.ok).2.2 = ⟨some 10000⟩) :=
  dispatch_global_cooldown ⟨some 5000⟩ 5000 10000 InvokeOutcome.ok rfl (by decide)

/-- Claim C10: a call that passes the debounce check records `lastSentAt :=
now` regardless of how the delivery attempt then ends — including an
invocation error or a thrown exception, where nothing is delivered — so any
later call within 30000 ms of it is skipped as debounced with no outbound
attempt. -/
theorem dispatch_cooldown_set_before_attempt (st : DispatchState)
    (now1 now2 : Int) (outcome1 outcome2 : InvokeOutcome)
    (hfree : dispatchDebounced st now1 = false)
    (hpos : 0 < now1) (hlt : now2 - now1 < 30000) :
    (sendEmergencyAlert st now1 outcome1).2.2 = ⟨some now1⟩
    ∧ sendEmergencyAlert (sendEmergencyAlert st now1 outcome1).2.2 now2 outcome2
        = (DispatchResult.debounced, false, ⟨some now1⟩) := by
  have hstate : (sendEmergencyAlert st now1 outcome1).2.2 = ⟨some now1⟩ := by
    simp [sendEmergencyAlert, hfree]
  refine ⟨hstate, ?_⟩
  rw [hstate]
  have hdeb : dispatchDebounced ⟨some now1⟩ now2 = true := by
    unfold dispatchDebounced
    simp only [bne_iff_ne, ne_eq, Bool.and_eq_true, decide_eq_true_eq,
      DISPATCH_DEBOUNCE_MS]
    omega
  simp [sendEmergencyAlert, hdeb]

/-- Witness for `dispatch_cooldown_set_before_attempt`: the first call's
invocation throws, yet the second call 10000 ms later is still debounced. -/
theorem dispatch_cooldown_set_before_attempt_witness :
    (sendEmergencyAlert initialDispatchState 5000 InvokeOutcome.thrown).2.2
      = ⟨some 5000⟩
    ∧ sendEmergencyAlert
        (sendEmergencyAlert initialDispatchState 5000 InvokeOutcome.thrown).2.2
        15000 InvokeOutcome.ok
      = (DispatchResult.debounced, false, ⟨some 5000⟩) :=
  dispatch_cooldown_set_before_attempt initialDispatchState 5000 15000
    InvokeOutcome.thrown InvokeOutcome.ok (by decide) (by decide) (by decide)

/-! ### Dispatch edge function: `supabase/functions/emergency-dispatch` -/

/-- Which external channels the edge function finds configured in its
environment: Telegram needs both `TELEGRAM_BOT_TOKEN` and
`TELEGRAM_CHAT_ID`, email needs `RESEND_API_KEY`. -/
structure EdgeConfig where
  telegramConfigured : Bool
  emailConfigured : Bool
deriving DecidableEq

/-- The fate of one channel's delivery attempt: the provider accepted the
message, the provider responded with a failure, or the attempt threw (and
was caught by that channel's own `try`/`catch`). -/
inductive ChannelOutcome
  | delivered
  | rejected
  | thrown
deriving DecidableEq

/-- The per-channel success flag the handler stores in `results`:
`true` only when the provider accepted the message; a rejected or thrown
attempt is recorded as `false` by the `catch`/result handling. -/
def channelOk : ChannelOutcome → Bool
  | ChannelOutcome.delivered => true
  | ChannelOutcome.rejected => false
  | ChannelOutcome.thrown => false

/-- An outbound contact to an external service. -/
inductive OutboundAttempt
  | telegramSend
  | emailSend
deriving DecidableEq

/-- What the edge function hands back for one request. -/
structure EdgeResponse where
  telegramResult : Option Bool
  emailResult : Option Bool
  responseSuccess : Bool
deriving DecidableEq

/-- The request handler of `supabase/functions/emergency-dispatch/index.ts`
(lines 19-203) on a well-formed alert, abstracting each channel's transport
into a `ChannelOutcome`: the Telegram block runs iff Telegram is
configured, with its own `try`/`catch` recording `results.telegram`; the
email block runs afterwards iff email is configured, independently of how
the Telegram block ended, with its own `try`/`catch` recording
`results.email`; and the handler always answers
`{ success: true, message: "Emergency alert dispatched", results }`.
The returned list records the outbound attempts in order. -/
def emergencyDispatchHandler (cfg : EdgeConfig) (tg em : ChannelOutcome) :
    EdgeResponse × List OutboundAttempt :=
  ({ telegramResult := if cfg.telegramConfigured then some (channelOk tg) else none
     emailResult := if cfg.emailConfigured then some (channelOk em) else none
     responseSuccess := true },
   (if cfg.telegramConfigured then [OutboundAttempt.telegramSend] else [])
     ++ (if cfg.emailConfigured then [OutboundAttempt.emailSend] else []))

/-- Claim C8: every configured channel is attempted no matter how the other
channel fares — in particular email is still attempted when the Telegram
attempt throws; a failing channel is recorded as `false` in its own entry
of the per-channel results without affecting the other channel's entry; and
the aggregated response always reports success. -/
theorem dispatch_channels_independent (cfg : EdgeConfig) (tg em : ChannelOutcome) :
    (cfg.telegramConfigured = true →
      OutboundAttempt.telegramSend ∈ (emergencyDispatchHandler cfg tg em).2)
    ∧ (cfg.emailConfigured = true →
      OutboundAttempt.emailSend ∈ (emergencyDispatchHandler cfg tg em).2)
    ∧ (cfg.telegramConfigured = true → tg ≠ ChannelOutcome.delivered →
      (emergencyDispatchHandler cfg tg em).1.telegramResult = some false)
    ∧ (cfg.emailConfigured = true → em ≠ ChannelOutcome.delivered →
      (emergencyDispatchHandler cfg tg em).1.emailResult = some false)
    ∧ (cfg.emailConfigured = true →
      (emergencyDispatchHandler cfg tg em).1.emailResult = some (channelOk em))
    ∧ (emergencyDispatchHandler cfg tg em).1.responseSuccess = true := by
  refine ⟨?_, ?_, ?_, ?_, ?_, rfl⟩
  · intro h
    simp [emergencyDispatchHandler, h]
  · intro h
    simp [emergencyDispatchHandler, h]
  · intro h hfail
    cases tg
    · exact absurd rfl hfail
    · simp [emergencyDispatchHandler, h, channelOk]
    · simp [emergencyDispatchHandler, h, channelOk]
  · intro h hfail
    cases em
    · exact absurd rfl hfail
    · simp [emergencyDispatchHandler, h, channelOk]
    · simp [emergencyDispatchHandler, h, channelOk]
  · intro h
    simp [emergencyDispatchHandler, h]

/-- Witness for `dispatch_channels_independent`: both channels configured,
the Telegram attempt throws, the email attempt succeeds. -/
theorem dispatch_channels_independent_witness :
    OutboundAttempt.emailSend
      ∈ (emergencyDispatchHandler ⟨true, true⟩ ChannelOutcome.thrown
          ChannelOutcome.delivered).2
    ∧ (emergencyDispatchHandler ⟨true, true⟩ ChannelOutcome.thrown
        ChannelOutcome.delivered).1.telegramResult = some false :=
  ⟨(dispatch_channels_independent ⟨true, true⟩ ChannelOutcome.thrown
      ChannelOutcome.delivered).2.1 rfl,
   (dispatch_channels_independent ⟨true, true⟩ ChannelOutcome.thrown
      ChannelOutcome.delivered).2.2.1 rfl (by decide)⟩

end Hifazat
